import Mathlib

set_option maxRecDepth 100000

/-!
Shallow embedding of the browser-facing lead-capture repository:
the shared lead-submission validation schema (src/shared/schema.ts),
the setup wizard's persisted-step initializer and status-polling policy
(client setup wizard page), and the configuration fetch layer
(useAppConfig hook).

Strings are modelled as Lean `String` / `List Char`; JavaScript string
lengths coincide with ours on the BMP/ASCII inputs the claims use.
-/

namespace SSC

/-! ## JavaScript string primitives -/

/-- Character class of JavaScript whitespace: the set matched by the
regex class backslash-s and removed by `String.prototype.trim` (space,
tab, LF, VT, FF, CR, NBSP, Ogham space, the U+2000 block, line/paragraph
separators, narrow NBSP, math space, ideographic space, BOM). -/
def jsWhitespace (c : Char) : Bool :=
  c = ' ' || c = '\t' || c = '\n' || c = '\r' ||
  c.toNat = 11 || c.toNat = 12 || c.toNat = 0xa0 || c.toNat = 0x1680 ||
  (0x2000 ≤ c.toNat && c.toNat ≤ 0x200a) || c.toNat = 0x2028 || c.toNat = 0x2029 ||
  c.toNat = 0x202f || c.toNat = 0x205f || c.toNat = 0x3000 || c.toNat = 0xfeff

/-- Model of `String.prototype.trim`: drop leading and trailing
JavaScript whitespace. -/
def jsTrim (s : String) : String :=
  String.mk (((s.data.dropWhile jsWhitespace).reverse.dropWhile jsWhitespace).reverse)

/-- Model of `str.replace(/\s/g, "")`: remove every JavaScript
whitespace character. -/
def stripWs (s : String) : String :=
  String.mk (s.data.filter (fun c => !jsWhitespace c))

/-- Model of `String.prototype.toLowerCase` restricted to ASCII, which is
all the schema's lowercasing is exercised on. -/
def jsToLower (s : String) : String :=
  String.mk (s.data.map Char.toLower)

/-- Decides whether list `p` is a prefix of list `l`. -/
def hasPrefixL : List Char → List Char → Bool
  | [], _ => true
  | _ :: _, [] => false
  | p :: ps, c :: cs => p = c && hasPrefixL ps cs

/-- Decides whether `p` occurs as a contiguous sublist of the second
argument (model of `String.prototype.includes`). -/
def hasSubstrL (p : List Char) : List Char → Bool
  | [] => hasPrefixL p []
  | c :: rest => hasPrefixL p (c :: rest) || hasSubstrL p rest

/-- Model of `s.includes(sub)`. -/
def strIncludes (s sub : String) : Bool :=
  hasSubstrL sub.data s.data

/-- Decides whether the pattern (given lowercase) is a case-insensitive
prefix of the list. -/
def hasPrefixCI : List Char → List Char → Bool
  | [], _ => true
  | _ :: _, [] => false
  | p :: ps, c :: cs => c.toLower = p && hasPrefixCI ps cs

/-- ASCII decimal digit test (regex class 0-9). -/
def digitChar (c : Char) : Bool := '0' ≤ c && c ≤ '9'

/-- ASCII letter test. -/
def asciiAlpha (c : Char) : Bool :=
  ('a' ≤ c && c ≤ 'z') || ('A' ≤ c && c ≤ 'Z')

/-- ASCII letter-or-digit test. -/
def asciiAlnum (c : Char) : Bool := asciiAlpha c || digitChar c

/-- Decides whether a string contains a carriage return or line feed,
the test performed by the schema's email `refine` regex. -/
def hasCRLF (s : String) : Bool :=
  s.data.any (fun c => c = '\r' || c = '\n')

/-! ## Sanitizer

Model of `sanitizeInput` from src/shared/schema.ts:
`DOMPurify.sanitize(input, ALLOWED_TAGS [], ALLOWED_ATTR []).trim()`.
DOMPurify is an external dependency (isomorphic-dompurify); its
tag-stripping behaviour is modelled here: tag markup `<...>` is removed,
the whole content of a script element is removed (script is in
DOMPurify's forbidden-contents set), text is kept. The model does not
re-encode HTML entities in the surviving text. -/

/-- Scanner state for the sanitizer: ordinary text, inside tag markup,
or inside a script element whose content is discarded. -/
inductive SanState
  | text
  | tag
  | script
deriving DecidableEq

/-- One-pass tag stripper over the character list. In `text`, a `<`
opens markup (a script element when the name reads `script`); in `tag`,
everything through the closing `>` is dropped; in `script`, everything
is dropped until the closing `</script` begins, which is then consumed
as markup. -/
def stripCore : SanState → List Char → List Char
  | _, [] => []
  | .text, '<' :: rest =>
    if hasPrefixCI ['s', 'c', 'r', 'i', 'p', 't'] rest then
      stripCore .script rest
    else
      stripCore .tag rest
  | .text, c :: rest => c :: stripCore .text rest
  | .tag, '>' :: rest => stripCore .text rest
  | .tag, _ :: rest => stripCore .tag rest
  | .script, c :: rest =>
    if hasPrefixCI ['<', '/', 's', 'c', 'r', 'i', 'p', 't'] (c :: rest) then
      stripCore .tag rest
    else
      stripCore .script rest

/-- Model of `sanitizeInput` (schema.ts lines 17-22): strip all HTML
tags and attributes, then trim. -/
def sanitizeInput (s : String) : String :=
  jsTrim (String.mk (stripCore .text s.data))

/-! ## Email syntax

Model of the email regex applied by the zod string validator `.email()`
(external dependency): case-insensitively, a local part with no leading
dot and no repeated dot, drawn from letters, digits, underscore,
apostrophe, plus, minus and dot, whose final character is not a dot or
apostrophe, then `@`, then one or more labels starting with a letter or
digit and continuing with letters, digits or hyphens, separated by dots,
ending in an all-letter top-level label of length at least two. -/

/-- Characters allowed anywhere in the local part of an email address
(letters, digits, underscore, apostrophe 0x27, plus, minus, dot). -/
def emailLocalChar (c : Char) : Bool :=
  asciiAlnum c || c = '_' || c.toNat = 39 || c = '+' || c = '-' || c = '.'

/-- Characters allowed as the final character of the local part (no dot
and no apostrophe). -/
def emailLocalLastChar (c : Char) : Bool :=
  asciiAlnum c || c = '_' || c = '+' || c = '-'

/-- Checks a nonempty email local part: every character allowed, the
final character from the restricted class, and no leading dot. -/
def emailLocalOk (l : List Char) : Bool :=
  match l with
  | [] => false
  | c :: rest =>
    !(c = '.') && (c :: rest).all emailLocalChar &&
      emailLocalLastChar ((c :: rest).getLast (by simp))

/-- Checks a non-final domain label: nonempty, starts with a letter or
digit, continues with letters, digits or hyphens. -/
def emailLabelOk (l : List Char) : Bool :=
  match l with
  | [] => false
  | c :: rest => asciiAlnum c && rest.all (fun d => asciiAlnum d || d = '-')

/-- Checks the final (top-level) domain label: letters only, length at
least two. -/
def emailTldOk (l : List Char) : Bool :=
  2 ≤ l.length && l.all asciiAlpha

/-- Rejects two consecutive dots anywhere in the string (the negative
lookahead of the email regex). -/
def noDoubleDot : List Char → Bool
  | '.' :: '.' :: _ => false
  | _ :: rest => noDoubleDot rest
  | [] => true

/-- Splits a character list at every occurrence of the separator, the
list analogue of `String.split` at a single character: the result is the
run of fragments between separators, each possibly empty. -/
def splitOnChar (sep : Char) : List Char → List (List Char)
  | [] => [[]]
  | c :: rest =>
    if c = sep then [] :: splitOnChar sep rest
    else
      match splitOnChar sep rest with
      | [] => [[c]]
      | h :: t => (c :: h) :: t

/-- Full email syntax test of the zod `.email()` validator. -/
def zodEmailCheck (s : String) : Bool :=
  noDoubleDot s.data &&
  match splitOnChar '@' s.data with
  | [loc, dom] =>
    emailLocalOk loc &&
    (let labels := splitOnChar '.' dom
     2 ≤ labels.length &&
     labels.dropLast.all emailLabelOk &&
     emailTldOk (labels.getLastD []))
  | _ => false

/-! ## Phone pattern

Model of `phoneRegex` (schema.ts line 44):
optional plus, optional open paren, three digits, optional close paren,
optional separator, three digits, optional separator, four to six digits,
anchored at both ends. Every optional element's character class is
disjoint from the class that follows it, so the greedy deterministic
scan below decides exactly the regex language. -/

/-- Separator class of the phone regex: dash, dot or JavaScript
whitespace. -/
def phoneSep (c : Char) : Bool :=
  c = '-' || c = '.' || jsWhitespace c

/-- Consume exactly `n` leading digits, returning the remainder. -/
def takeDigits : Nat → List Char → Option (List Char)
  | 0, l => some l
  | _ + 1, [] => none
  | n + 1, c :: rest => if digitChar c then takeDigits n rest else none

/-- Decides membership in the language of `phoneRegex`. -/
def phoneMatch (l : List Char) : Bool :=
  let l1 := match l with
    | '+' :: r => r
    | _ => l
  let l2 := match l1 with
    | '(' :: r => r
    | _ => l1
  match takeDigits 3 l2 with
  | none => false
  | some l3 =>
    let l4 := match l3 with
      | ')' :: r => r
      | _ => l3
    let l5 := match l4 with
      | c :: r => if phoneSep c then r else l4
      | _ => l4
    match takeDigits 3 l5 with
    | none => false
    | some l6 =>
      let l7 := match l6 with
        | c :: r => if phoneSep c then r else l6
        | _ => l6
      l7.all digitChar && 4 ≤ l7.length && l7.length ≤ 6

/-! ## Field validators (leadSubmissionSchema, schema.ts lines 62-96)

Each zod field pipeline is modelled as a function from the raw string to
either an error message or the transformed value. Zod runs the checks of
a string schema in sequence, then `refine` conditions, then `transform`,
and a `pipe` re-validates the transformed value. -/

/-- Name pipeline: `min(1)` / `max(100)` on the raw string, sanitize,
then re-validate `min(1)` on the sanitized value. -/
def validateName (s : String) : Except String String :=
  if s.length < 1 then Except.error "Name is required"
  else if 100 < s.length then Except.error "Name is too long"
  else if (sanitizeInput s).length < 1 then Except.error "Name is required"
  else Except.ok (sanitizeInput s)

/-- Email pipeline: trim, syntax check, `max(255)`, refine rejecting
carriage returns and line feeds, then sanitize and lowercase. -/
def validateEmail (s : String) : Except String String :=
  if !zodEmailCheck (jsTrim s) then Except.error "Please enter a valid email address"
  else if 255 < (jsTrim s).length then Except.error "Email is too long"
  else if hasCRLF (jsTrim s) then Except.error "Email cannot contain newlines"
  else Except.ok (jsToLower (sanitizeInput (jsTrim s)))

/-- Phone pipeline: an absent value passes; a present value passes the
refine when it is falsy (the empty string) or its whitespace-stripped
form matches the phone regex. The value is never transformed. -/
def validatePhone : Option String → Except String (Option String)
  | none => Except.ok none
  | some v =>
    if v = "" then Except.ok (some v)
    else if phoneMatch (stripWs v).data then Except.ok (some v)
    else Except.error "Please enter a valid phone number"

/-- Message pipeline: `min(1)` / `max(1000)` on the raw string,
sanitize, then re-validate `min(1)` / `max(1000)` on the sanitized
value. -/
def validateMessage (s : String) : Except String String :=
  if s.length < 1 then Except.error "Message is required"
  else if 1000 < s.length then Except.error "Message is too long"
  else if (sanitizeInput s).length < 1 then Except.error "Message is required"
  else if 1000 < (sanitizeInput s).length then Except.error "Message is too long"
  else Except.ok (sanitizeInput s)

/-! ## Whole-object parse -/

/-- Untrusted input object handed to `leadSubmissionSchema.safeParse`;
`none` models an absent (undefined) property. -/
structure RawLead where
  name : Option String
  email : Option String
  phone : Option String
  message : Option String
deriving DecidableEq

/-- Normalized output of a successful parse (the `LeadSubmission`
type). -/
structure LeadSubmission where
  name : String
  email : String
  phone : Option String
  message : String
deriving DecidableEq

/-- Lift a required field: zod reports `Required` for an absent
property. -/
def requiredField (f : String → Except String α) : Option String → Except String α
  | none => Except.error "Required"
  | some s => f s

/-- Issues contributed by one field: the field path paired with its
message, or nothing. -/
def fieldIssues (field : String) : Except String α → List (String × String)
  | Except.ok _ => []
  | Except.error m => [(field, m)]

/-- Model of `leadSubmissionSchema.safeParse`: succeeds with the
normalized object when every field passes, otherwise collects the
field-path/message issues in shape order (name, email, phone,
message). -/
def parseLead (r : RawLead) : Except (List (String × String)) LeadSubmission :=
  match requiredField validateName r.name, requiredField validateEmail r.email,
        validatePhone r.phone, requiredField validateMessage r.message with
  | Except.ok n, Except.ok e, Except.ok p, Except.ok m =>
    Except.ok ⟨n, e, p, m⟩
  | rn, re, rp, rm =>
    Except.error (fieldIssues "name" rn ++ fieldIssues "email" re ++
      fieldIssues "phone" rp ++ fieldIssues "message" rm)

/-! ## Wizard step restore (setup wizard page, step initializer)

Model of the `useState` initializer: read the persisted value from
browser-local storage (`none` models a missing key), require it truthy
(the empty string is falsy), parse it with `parseInt(saved, 10)`, and
accept it only when it is a number in the range 1 to 9. -/

/-- Numeric value of a nonempty list of decimal digits. -/
def digitsVal (l : List Char) : Nat :=
  l.foldl (fun a c => a * 10 + (c.toNat - 48)) 0

/-- Model of JavaScript `parseInt(s, 10)`: skip leading whitespace, read
an optional sign, then the longest prefix of decimal digits; `none`
models the NaN result when no digit is found. -/
def jsParseInt10 (s : String) : Option Int :=
  let l := s.data.dropWhile jsWhitespace
  let p : Int × List Char :=
    match l with
    | '-' :: r => (-1, r)
    | '+' :: r => (1, r)
    | _ => (1, l)
  let ds := p.2.takeWhile digitChar
  if ds.isEmpty then none
  else some (p.1 * (digitsVal ds : Int))

/-- Initial wizard step computed from the stored value: the parsed
number when it lies in 1..9, otherwise 1. -/
def initialStep (saved : Option String) : Int :=
  match saved with
  | none => 1
  | some s =>
    if s = "" then 1
    else
      match jsParseInt10 s with
      | none => 1
      | some n => if 1 ≤ n && n ≤ 9 then n else 1

/-! ## Setup-status polling (setup wizard page, setup-status useQuery)

The polling policy is driven by the rate-limit flag, the last fetched
status, and the current wizard step. The query function sets the flag on
a 429 response and clears it on any successful response; the
`refetchInterval` callback polls every 5000 ms only when the status is
not configured, the wizard is on step 8 (OAuth) and the flag is
clear. -/

/-- Observable state feeding the polling decision: the rate-limit flag,
the configured bit of the last successfully delivered status (`none`
before any data), and the current wizard step. -/
structure WizardPollState where
  isRateLimited : Bool
  lastConfigured : Option Bool
  step : Nat
deriving DecidableEq

/-- Events that update the polling state: a wizard step change, a
successful status response, a 429 response, and any other failed
response (the query does not retry and keeps its data). -/
inductive PollEvent
  | stepChange (n : Nat)
  | fetchOk (configured : Bool)
  | fetchRateLimited
  | fetchOtherError
deriving DecidableEq

/-- Transition of the polling state on one event, following the query
function: a 429 sets the rate-limit flag and stores a not-configured
status; a success clears the flag and stores the reported status; other
errors are thrown and change nothing. -/
def pollStep (s : WizardPollState) : PollEvent → WizardPollState
  | .stepChange n => { s with step := n }
  | .fetchOk c => { s with isRateLimited := false, lastConfigured := some c }
  | .fetchRateLimited => { s with isRateLimited := true, lastConfigured := some false }
  | .fetchOtherError => s

/-- Model of the `refetchInterval` callback: no polling once the status
is configured; otherwise poll every 5000 ms exactly on step 8 with the
rate-limit flag clear. -/
def refetchIntervalMs (s : WizardPollState) : Option Nat :=
  if s.lastConfigured = some true then none
  else if s.step = 8 && !s.isRateLimited then some 5000
  else none

/-! ## Config fetch layer (useAppConfig hook)

The query function is a try block around `fetch` / `res.json()` with a
catch block; every branch of the catch returns the hard-coded default
configuration, so the function always resolves. Top-level JSON objects
are modelled as association lists from field name to an opaque
serialized value; the empty string models a falsy field value. -/

/-- Top-level JSON object: association list from field name to an
opaque serialized value. -/
abbrev JsObject : Type := List (String × String)

/-- Value of a field of a JSON object, if the key is present. -/
def jsGet (o : JsObject) (k : String) : Option String :=
  (o.find? (fun kv => kv.1 = k)).map (fun kv => kv.2)

/-- JavaScript truthiness of a field access `o.k`: the key is present
and its value is not falsy. -/
def hasTruthyField (o : JsObject) (k : String) : Bool :=
  match jsGet o k with
  | some v => !(v = "")
  | none => false

/-- Model of the object spread `\x7b...a, ...b\x7d`: every key of `b`
overrides the corresponding key of `a`. -/
def spreadMerge (a b : JsObject) : JsObject :=
  a.filter (fun kv => (jsGet b kv.1).isNone) ++ b

/-- Hard-coded `DEFAULT_CONFIG` of the hook, abstracted to its top-level
keys with opaque contents. -/
def DEFAULT_CONFIG : JsObject :=
  [("branding", "SmartSheetConnect default branding"),
   ("content", "SmartSheetConnect default hero and form content"),
   ("header", "SmartSheetConnect default header"),
   ("footer", "SmartSheetConnect default footer")]

/-- JavaScript error value: a name (`TypeError`, `AbortError`,
`SyntaxError`, `Error`) and a message. -/
structure JsError where
  name : String
  message : String
deriving DecidableEq

/-- Result of awaiting `res.json()` on a delivered response: a parse
failure, a parsed value that is not an object, or a parsed object. -/
inductive Body
  | malformed
  | nonObject
  | jsonObject (o : JsObject)
deriving DecidableEq

/-- One outcome of the fetch call: the promise rejects with an error
(network failure or abort), or a response with a status, status text and
body is delivered. -/
inductive Outcome
  | fetchError (e : JsError)
  | response (status : Nat) (statusText : String) (body : Body)
deriving DecidableEq

/-- Model of `Response.ok`: status in the range 200 to 299. -/
def resOk (st : Nat) : Bool :=
  200 ≤ st && st < 300

/-- Try block of the query function: a rejected fetch propagates its
error; an abort observed after the fetch throws a cancellation error; a
non-OK response returns the default config for status 500 and above and
throws for other statuses; a malformed body propagates the JSON error;
a non-object body returns the default config; an object missing a truthy
`branding` or `content` field returns the default config spread-merged
with the partial data; otherwise the server object is returned. -/
def configTry (signalAborted : Bool) (out : Outcome) : Except JsError JsObject :=
  match out with
  | .fetchError e => Except.error e
  | .response st stx body =>
    if signalAborted then Except.error ⟨"Error", "Request was cancelled"⟩
    else if !resOk st then
      if 500 ≤ st then Except.ok DEFAULT_CONFIG
      else Except.error ⟨"Error", "Failed to load configuration: " ++ toString st ++ " " ++ stx⟩
    else
      match body with
      | .malformed => Except.error ⟨"SyntaxError", "Unexpected token in JSON"⟩
      | .nonObject => Except.ok DEFAULT_CONFIG
      | .jsonObject o =>
        if !hasTruthyField o "branding" || !hasTruthyField o "content" then
          Except.ok (spreadMerge DEFAULT_CONFIG o)
        else Except.ok o

/-- Catch block of the query function: every branch (cancelled abort,
timeout abort, network or cancellation message, any other error) returns
the default config. -/
def configCatch (signalAborted : Bool) (e : JsError) : JsObject :=
  if e.name = "AbortError" && signalAborted then DEFAULT_CONFIG
  else if e.name = "AbortError" then DEFAULT_CONFIG
  else if strIncludes e.message "fetch" || strIncludes e.message "cancelled" then DEFAULT_CONFIG
  else DEFAULT_CONFIG

/-- Whole query function: the try block with its catch handler. -/
def configQueryFn (signalAborted : Bool) (out : Outcome) : JsObject :=
  match configTry signalAborted out with
  | Except.ok c => c
  | Except.error e => configCatch signalAborted e

/-- Model of the hook's `retry` option: retry only while the failure
count is below one and the lowercased error message mentions a network
failure, a timeout, or one of the 5xx status codes 500, 502 or 503. -/
def configRetry (failureCount : Nat) (e : JsError) : Bool :=
  if failureCount < 1 then
    strIncludes (jsToLower e.message) "network" || strIncludes (jsToLower e.message) "timeout" ||
      strIncludes (jsToLower e.message) "500" || strIncludes (jsToLower e.message) "503" ||
      strIncludes (jsToLower e.message) "502"
  else false

/-- Model of the hook's `retryDelay` option: exponential backoff from
1000 ms capped at 5000 ms. -/
def configRetryDelay (attemptIndex : Nat) : Nat :=
  min (1000 * 2 ^ attemptIndex) 5000

end SSC

deriving instance DecidableEq for Except

namespace SSC

/-! ## Helper lemmas -/

theorem length_pos_of_ne_empty {s : String} (h : s ≠ "") : 1 ≤ s.length := by
  cases s with
  | mk d =>
    cases d with
    | nil => exact absurd rfl h
    | cons c cs => simp [String.length]

theorem validateName_ok_eq {s v : String} (h : validateName s = Except.ok v) :
    v = sanitizeInput s := by
  unfold validateName at h
  split at h
  · exact absurd h (by simp)
  · split at h
    · exact absurd h (by simp)
    · split at h
      · exact absurd h (by simp)
      · cases h
        rfl

theorem validateEmail_ok_eq {s v : String} (h : validateEmail s = Except.ok v) :
    v = jsToLower (sanitizeInput (jsTrim s)) := by
  unfold validateEmail at h
  split at h
  · exact absurd h (by simp)
  · split at h
    · exact absurd h (by simp)
    · split at h
      · exact absurd h (by simp)
      · cases h
        rfl

theorem validateMessage_ok_eq {s v : String} (h : validateMessage s = Except.ok v) :
    v = sanitizeInput s := by
  unfold validateMessage at h
  split at h
  · exact absurd h (by simp)
  · split at h
    · exact absurd h (by simp)
    · split at h
      · exact absurd h (by simp)
      · split at h
        · exact absurd h (by simp)
        · cases h
          rfl

theorem validatePhone_ok_eq {v : Option String} {p : Option String}
    (h : validatePhone v = Except.ok p) : p = v := by
  cases v with
  | none =>
    cases h
    rfl
  | some s =>
    simp only [validatePhone] at h
    split at h
    · cases h
      rfl
    · split at h
      · cases h
        rfl
      · exact absurd h (by simp)

theorem configCatch_default (sa : Bool) (e : JsError) : configCatch sa e = DEFAULT_CONFIG := by
  unfold configCatch
  split
  · rfl
  · split
    · rfl
    · split
      · rfl
      · rfl

/-! ## Claim C1 -/

/-- Claim C1, counterexample: a name consisting solely of strippable
markup but exceeding the raw 100-character maximum (fifteen copies of an
empty bold element, 105 characters) is non-empty, sanitizes to the empty
string, yet validation fails with the maximum-length error, not the
"required" minimum-length error the claim asserts. -/
theorem name_markup_over_max_fails_too_long :
    String.join (List.replicate 15 "<b></b>") ≠ "" ∧
    sanitizeInput (String.join (List.replicate 15 "<b></b>")) = "" ∧
    validateName (String.join (List.replicate 15 "<b></b>")) =
      Except.error "Name is too long" := by
  refine ⟨by decide, by decide, by decide⟩

/-- Claim C1, amended: for every non-empty name (resp. message) string
that the sanitizer reduces to the empty string and whose raw length also
passes the field's pre-sanitization maximum, validation fails with the
"required" minimum-length error. -/
theorem markup_only_in_bounds_fails_required (s : String)
    (hne : s ≠ "") (hsan : sanitizeInput s = "") :
    (s.length ≤ 100 → validateName s = Except.error "Name is required") ∧
    (s.length ≤ 1000 → validateMessage s = Except.error "Message is required") := by
  have hpos : 1 ≤ s.length := length_pos_of_ne_empty hne
  constructor
  · intro hmax
    unfold validateName
    rw [hsan]
    rw [if_neg (by omega), if_neg (by omega), if_pos (by decide)]
  · intro hmax
    unfold validateMessage
    rw [hsan]
    rw [if_neg (by omega), if_neg (by omega), if_pos (by decide)]

/-- Claim C1, witness: the all-markup inputs of the claim fail the name
and message validators with the "required" error. -/
theorem markup_only_in_bounds_fails_required_witness :
    validateName "<b></b>" = Except.error "Name is required" ∧
    validateMessage "<script>x</script>" = Except.error "Message is required" :=
  ⟨(markup_only_in_bounds_fails_required "<b></b>" (by decide) (by decide)).1 (by decide),
   (markup_only_in_bounds_fails_required "<script>x</script>" (by decide) (by decide)).2
     (by decide)⟩

/-! ## Claim C2 -/

/-- Claim C2, counterexample: the name `<b></b>` has trimmed length 7,
inside the claimed 1..100 acceptance range, yet the name validator
rejects it (its sanitized form is empty), so acceptance is not
equivalent to the trimmed length lying in range. -/
theorem name_trimmed_in_range_but_rejected :
    1 ≤ (jsTrim "<b></b>").length ∧ (jsTrim "<b></b>").length ≤ 100 ∧
    validateName "<b></b>" = Except.error "Name is required" := by
  refine ⟨by decide, by decide, by decide⟩

/-- Claim C2, amended: the name field is accepted exactly when the raw
length is between 1 and 100 and the sanitized value is non-empty; the
message field exactly when the raw length is between 1 and 1000 and the
sanitized value has length between 1 and 1000; in particular a message
of 1000 `A` characters is accepted and one of 1001 is rejected. -/
theorem name_message_acceptance_characterization :
    (∀ s : String, (∃ v, validateName s = Except.ok v) ↔
      (1 ≤ s.length ∧ s.length ≤ 100 ∧ 1 ≤ (sanitizeInput s).length)) ∧
    (∀ s : String, (∃ v, validateMessage s = Except.ok v) ↔
      (1 ≤ s.length ∧ s.length ≤ 1000 ∧ 1 ≤ (sanitizeInput s).length ∧
        (sanitizeInput s).length ≤ 1000)) ∧
    (∃ v, validateMessage (String.mk (List.replicate 1000 'A')) = Except.ok v) ∧
    validateMessage (String.mk (List.replicate 1001 'A')) =
      Except.error "Message is too long" := by
  refine ⟨fun s => ?_, fun s => ?_, ⟨String.mk (List.replicate 1000 'A'), by decide⟩, by decide⟩
  · unfold validateName
    split
    · simp
      omega
    · split
      · simp
        omega
      · split
        · simp
          omega
        · simp
          omega
  · unfold validateMessage
    split
    · simp
      omega
    · split
      · simp
        omega
      · split
        · simp
          omega
        · split
          · simp
            omega
          · simp
            omega

/-! ## Claim C3 -/

/-- Claim C3: every accepted input yields a `LeadSubmission` whose name
and message are the trimmed, HTML-sanitized raw values and whose email
is the trimmed, sanitized, lowercased raw value (the sanitizer itself
ends with a trim). -/
theorem parse_ok_values_normalized (r : RawLead) (out : LeadSubmission)
    (h : parseLead r = Except.ok out) :
    (∃ s, r.name = some s ∧ out.name = sanitizeInput s) ∧
    (∃ s, r.email = some s ∧ out.email = jsToLower (sanitizeInput (jsTrim s))) ∧
    (∃ s, r.message = some s ∧ out.message = sanitizeInput s) := by
  unfold parseLead at h
  split at h
  case _ n e p m hn he hp hm =>
    cases h
    refine ⟨?_, ?_, ?_⟩
    · cases hrn : r.name with
      | none => rw [hrn] at hn; exact absurd hn (by simp [requiredField])
      | some s =>
        rw [hrn] at hn
        exact ⟨s, rfl, validateName_ok_eq hn⟩
    · cases hre : r.email with
      | none => rw [hre] at he; exact absurd he (by simp [requiredField])
      | some s =>
        rw [hre] at he
        exact ⟨s, rfl, validateEmail_ok_eq he⟩
    · cases hrm : r.message with
      | none => rw [hrm] at hm; exact absurd hm (by simp [requiredField])
      | some s =>
        rw [hrm] at hm
        exact ⟨s, rfl, validateMessage_ok_eq hm⟩
  case _ =>
    exact absurd h (by simp)

/-- Claim C3, witness: the object with name `  John Doe  `, email
`JOHN@EXAMPLE.COM` and message `  Hello  ` is accepted, and the theorem
instantiated at it exhibits the normalized values; in particular the
email is lowercased to `john@example.com`. -/
theorem parse_ok_values_normalized_witness :
    parseLead ⟨some "  John Doe  ", some "JOHN@EXAMPLE.COM", none, some "  Hello  "⟩ =
      Except.ok ⟨"John Doe", "john@example.com", none, "Hello"⟩ ∧
    ((∃ s, (⟨some "  John Doe  ", some "JOHN@EXAMPLE.COM", none, some "  Hello  "⟩ :
        RawLead).name = some s ∧
        (⟨"John Doe", "john@example.com", none, "Hello"⟩ : LeadSubmission).name =
          sanitizeInput s) ∧
      (∃ s, (⟨some "  John Doe  ", some "JOHN@EXAMPLE.COM", none, some "  Hello  "⟩ :
        RawLead).email = some s ∧
        (⟨"John Doe", "john@example.com", none, "Hello"⟩ : LeadSubmission).email =
          jsToLower (sanitizeInput (jsTrim s))) ∧
      (∃ s, (⟨some "  John Doe  ", some "JOHN@EXAMPLE.COM", none, some "  Hello  "⟩ :
        RawLead).message = some s ∧
        (⟨"John Doe", "john@example.com", none, "Hello"⟩ : LeadSubmission).message =
          sanitizeInput s)) :=
  ⟨by decide,
   parse_ok_values_normalized
     ⟨some "  John Doe  ", some "JOHN@EXAMPLE.COM", none, some "  Hello  "⟩
     ⟨"John Doe", "john@example.com", none, "Hello"⟩ (by decide)⟩

/-! ## Claim C4 -/

/-- Claim C4, counterexample: the email value with a trailing line feed
contains an LF character yet is accepted, because the trim removes the
LF before the newline refinement runs; so it is not true that any email
value containing CR or LF is rejected. -/
theorem email_trailing_newline_accepted :
    hasCRLF "john@example.com\n" = true ∧
    validateEmail "john@example.com\n" = Except.ok "john@example.com" := by
  refine ⟨by decide, by decide⟩

/-- Claim C4, amended: the email field is accepted only if, after
trimming, it has valid syntax, length at most 255, and its trimmed value
contains no CR or LF (CR or LF stripped by the trim do not cause
rejection); the checks apply in the order trim, syntax, length, newline
rejection, then sanitize and lowercase, as witnessed by the error
precedence below. -/
theorem email_checks_characterization :
    (∀ s v, validateEmail s = Except.ok v →
      zodEmailCheck (jsTrim s) = true ∧ (jsTrim s).length ≤ 255 ∧
        hasCRLF (jsTrim s) = false ∧ v = jsToLower (sanitizeInput (jsTrim s))) ∧
    (∀ s, zodEmailCheck (jsTrim s) = false →
      validateEmail s = Except.error "Please enter a valid email address") ∧
    (∀ s, zodEmailCheck (jsTrim s) = true → 255 < (jsTrim s).length →
      validateEmail s = Except.error "Email is too long") ∧
    (∀ s, zodEmailCheck (jsTrim s) = true → (jsTrim s).length ≤ 255 →
      hasCRLF (jsTrim s) = true →
      validateEmail s = Except.error "Email cannot contain newlines") := by
  refine ⟨fun s v h => ?_, fun s h => ?_, fun s h1 h2 => ?_, fun s h1 h2 h3 => ?_⟩
  · unfold validateEmail at h
    split at h
    · exact absurd h (by simp)
    · split at h
      · exact absurd h (by simp)
      · split at h
        · exact absurd h (by simp)
        · rename_i hq hl hc
          cases h
          exact ⟨by simpa using hq, by omega, by simpa using hc, rfl⟩
  · unfold validateEmail
    rw [if_pos (by simp [h])]
  · unfold validateEmail
    rw [if_neg (by simp [h1]), if_pos h2]
  · unfold validateEmail
    rw [if_neg (by simp [h1]), if_neg (by omega), if_pos h3]

/-- Claim C4, witness: instantiating the acceptance direction at the
uppercase email shows the trimmed value passes each check and the value
is normalized; instantiating the syntax-error case at `notanemail` shows
the syntax error takes precedence. -/
theorem email_checks_characterization_witness :
    (zodEmailCheck (jsTrim "JOHN@EXAMPLE.COM") = true ∧
      (jsTrim "JOHN@EXAMPLE.COM").length ≤ 255 ∧
      hasCRLF (jsTrim "JOHN@EXAMPLE.COM") = false ∧
      "john@example.com" = jsToLower (sanitizeInput (jsTrim "JOHN@EXAMPLE.COM"))) ∧
    validateEmail "notanemail" = Except.error "Please enter a valid email address" :=
  ⟨email_checks_characterization.1 "JOHN@EXAMPLE.COM" "john@example.com" (by decide),
   email_checks_characterization.2.1 "notanemail" (by decide)⟩

/-! ## Claim C5 -/

/-- Claim C5, counterexample: the empty string is a provided phone value
that does not match the phone pattern after whitespace removal, yet it
is accepted (the refine short-circuits on falsy values), so acceptance
of provided values is not equivalent to matching the pattern. -/
theorem empty_phone_accepted_without_match :
    phoneMatch (stripWs "").data = false ∧
    validatePhone (some "") = Except.ok (some "") := by
  refine ⟨by decide, by decide⟩

/-- Claim C5, amended: an absent phone is accepted; the empty string is
accepted without a pattern test (JavaScript falsiness); any other
provided phone is accepted exactly when its whitespace-stripped form
matches the pattern; in particular `555-123` is rejected and
`(555) 123-4567` accepted. -/
theorem phone_acceptance_characterization :
    validatePhone none = Except.ok none ∧
    validatePhone (some "") = Except.ok (some "") ∧
    (∀ s : String, s ≠ "" →
      validatePhone (some s) =
        (if phoneMatch (stripWs s).data then Except.ok (some s)
         else Except.error "Please enter a valid phone number")) ∧
    validatePhone (some "555-123") = Except.error "Please enter a valid phone number" ∧
    validatePhone (some "(555) 123-4567") = Except.ok (some "(555) 123-4567") := by
  refine ⟨rfl, by decide, fun s hs => ?_, by decide, by decide⟩
  simp only [validatePhone]
  rw [if_neg hs]

/-- Claim C5, witness: instantiating the pattern-equivalence at
`(555) 123-4567` reduces the validator to the pattern test. -/
theorem phone_acceptance_characterization_witness :
    validatePhone (some "(555) 123-4567") =
      (if phoneMatch (stripWs "(555) 123-4567").data then Except.ok (some "(555) 123-4567")
       else Except.error "Please enter a valid phone number") :=
  phone_acceptance_characterization.2.2.1 "(555) 123-4567" (by decide)

/-! ## Claim C10 -/

/-- Claim C10: whatever phone value a successful parse was given comes
back verbatim (the refine never transforms it), and in particular the
submission with the empty-string phone is accepted and returns the empty
string, unlike the trimmed and sanitized name, email and message. -/
theorem phone_returned_verbatim (r : RawLead) (out : LeadSubmission)
    (h : parseLead r = Except.ok out) :
    out.phone = r.phone := by
  unfold parseLead at h
  split at h
  case _ n e p m hn he hp hm =>
    cases h
    exact (validatePhone_ok_eq hp).symm ▸ rfl
  case _ =>
    exact absurd h (by simp)

/-- Claim C10, witness: the submission carrying the empty-string phone
parses successfully and the theorem instantiated at it returns the phone
untouched. -/
theorem phone_returned_verbatim_witness :
    parseLead ⟨some "John Doe", some "john@example.com", some "", some "Hi"⟩ =
      Except.ok ⟨"John Doe", "john@example.com", some "", "Hi"⟩ ∧
    (⟨"John Doe", "john@example.com", some "", "Hi"⟩ : LeadSubmission).phone =
      (⟨some "John Doe", some "john@example.com", some "", some "Hi"⟩ : RawLead).phone :=
  ⟨by decide,
   phone_returned_verbatim
     ⟨some "John Doe", some "john@example.com", some "", some "Hi"⟩
     ⟨"John Doe", "john@example.com", some "", "Hi"⟩ (by decide)⟩

/-! ## Claim C6 -/

/-- Claim C6: a stored value that does not parse to a number, or parses
to a number outside 1..9, yields initial step 1; a stored value parsing
to a number inside 1..9 yields that number; a missing stored value
yields 1. -/
theorem initial_step_spec :
    (∀ s : String, jsParseInt10 s = none → initialStep (some s) = 1) ∧
    (∀ (s : String) (n : Int), jsParseInt10 s = some n →
      ((1 ≤ n ∧ n ≤ 9) → initialStep (some s) = n) ∧
      ((n < 1 ∨ 9 < n) → initialStep (some s) = 1)) ∧
    initialStep none = 1 := by
  refine ⟨fun s h => ?_, fun s n h => ?_, rfl⟩
  · simp only [initialStep]
    split
    · rfl
    · simp only [h]
  · have hs : ¬(s = "") := by
      intro he
      subst he
      rw [(rfl : jsParseInt10 "" = none)] at h
      cases h
    constructor
    · intro hr
      simp only [initialStep]
      rw [if_neg hs]
      simp only [h]
      split
      · rfl
      · rename_i hc
        simp only [Bool.and_eq_true, decide_eq_true_eq] at hc
        omega
    · intro hr
      simp only [initialStep]
      rw [if_neg hs]
      simp only [h]
      split
      · rename_i hc
        simp only [Bool.and_eq_true, decide_eq_true_eq] at hc
        omega
      · rfl

/-- Claim C6, witness: the stored value `99` parses to 99, out of
range, and the wizard starts at step 1; the stored value `7` parses in
range and the wizard starts at step 7. -/
theorem initial_step_spec_witness :
    initialStep (some "99") = 1 ∧ initialStep (some "7") = 7 :=
  ⟨(initial_step_spec.2.1 "99" 99 (by decide)).2 (by decide),
   (initial_step_spec.2.1 "7" 7 (by decide)).1 (by decide)⟩

/-! ## Claim C7 -/

theorem configTry_ok_shape {sa : Bool} {out : Outcome} {c : JsObject}
    (h : configTry sa out = Except.ok c) :
    c = DEFAULT_CONFIG ∨
    (∃ st stx o, out = Outcome.response st stx (Body.jsonObject o) ∧
      (c = o ∨ c = spreadMerge DEFAULT_CONFIG o)) := by
  cases out with
  | fetchError e => simp [configTry] at h
  | response st stx body =>
    simp only [configTry] at h
    split at h
    · simp at h
    · split at h
      · split at h
        · cases h
          exact Or.inl rfl
        · simp at h
      · split at h
        · simp at h
        · cases h
          exact Or.inl rfl
        · split at h
          · cases h
            exact Or.inr ⟨st, stx, _, rfl, Or.inr rfl⟩
          · cases h
            exact Or.inr ⟨st, stx, _, rfl, Or.inl rfl⟩

/-- Claim C7: for every fetch outcome (rejected fetch, abort, non-OK
status of any class, malformed or non-object body, or object missing
required fields) and every cancellation state, the config query function
resolves to a configuration object: the hard-coded default, the server's
object, or the default shallow-merged with the partial server object. -/
theorem config_query_always_resolves (sa : Bool) (out : Outcome) :
    configQueryFn sa out = DEFAULT_CONFIG ∨
    (∃ st stx o, out = Outcome.response st stx (Body.jsonObject o) ∧
      (configQueryFn sa out = o ∨ configQueryFn sa out = spreadMerge DEFAULT_CONFIG o)) := by
  rcases htry : configTry sa out with e | c
  · left
    simp [configQueryFn, htry, configCatch_default]
  · have hq : configQueryFn sa out = c := by simp [configQueryFn, htry]
    rcases configTry_ok_shape htry with h1 | ⟨st, stx, o, ho, hc⟩
    · left
      rw [hq, h1]
    · right
      refine ⟨st, stx, o, ho, ?_⟩
      rcases hc with h2 | h2
      · exact Or.inl (hq.trans h2)
      · exact Or.inr (hq.trans h2)

/-! ## Claim C8 -/

/-- Claim C8: the retry predicate allows a retry only on the very first
failure (so at most one retry happens) and only when the lowercased
error message mentions a network failure, a timeout, or the status codes
500, 503 or 502; the messages produced for 4xx client responses are not
retried; and the retry delay is exponential backoff from 1000 ms capped
at 5000 ms. -/
theorem config_retry_policy :
    (∀ (fc : Nat) (e : JsError), configRetry fc e = true → fc = 0) ∧
    (∀ (fc : Nat) (e : JsError), configRetry fc e = true →
      (strIncludes (jsToLower e.message) "network" || strIncludes (jsToLower e.message) "timeout" ||
       strIncludes (jsToLower e.message) "500" || strIncludes (jsToLower e.message) "503" ||
       strIncludes (jsToLower e.message) "502") = true) ∧
    configRetry 0 ⟨"Error", "Failed to load configuration: 404 Not Found"⟩ = false ∧
    configRetry 0 ⟨"Error", "Failed to load configuration: 400 Bad Request"⟩ = false ∧
    (∀ i, configRetryDelay i ≤ 5000) ∧
    configRetryDelay 0 = 1000 ∧ configRetryDelay 1 = 2000 ∧ configRetryDelay 2 = 4000 ∧
    (∀ i, 3 ≤ i → configRetryDelay i = 5000) := by
  refine ⟨fun fc e h => ?_, fun fc e h => ?_, by decide, by decide,
    fun i => Nat.min_le_right _ _, by decide, by decide, by decide, fun i hi => ?_⟩
  · unfold configRetry at h
    split at h
    · omega
    · cases h
  · unfold configRetry at h
    split at h
    · exact h
    · cases h
  · unfold configRetryDelay
    have h8 : (8 : Nat) ≤ 2 ^ i :=
      calc (8 : Nat) = 2 ^ 3 := by decide
      _ ≤ 2 ^ i := Nat.pow_le_pow_right (by decide) hi
    have h5 : (5000 : Nat) ≤ 1000 * 2 ^ i :=
      calc (5000 : Nat) ≤ 1000 * 8 := by decide
      _ ≤ 1000 * 2 ^ i := Nat.mul_le_mul_left 1000 h8
    exact Nat.min_eq_right h5

/-- Claim C8, witness: a network error message on the first failure is
retried, so the first-failure conclusion instantiates, and the delay cap
instantiates at attempt 5. -/
theorem config_retry_policy_witness :
    (0 : Nat) = 0 ∧ configRetryDelay 5 = 5000 :=
  ⟨config_retry_policy.1 0 ⟨"TypeError", "NetworkError when attempting to fetch resource"⟩
     (by decide),
   config_retry_policy.2.2.2.2.2.2.2.2 5 (by decide)⟩

/-! ## Claim C9 -/

/-- Claim C9, counterexample: from a non-configured state on the OAuth
step, a rate-limit response suspends polling, but one later successful
status fetch (a manual refetch or a remount fetch after a step change)
clears the rate-limit flag and polling becomes active again — so polling
does not stop permanently for the session after a 429. -/
theorem polling_resumes_after_rate_limit :
    refetchIntervalMs ⟨false, some false, 8⟩ = some 5000 ∧
    refetchIntervalMs (pollStep ⟨false, some false, 8⟩ PollEvent.fetchRateLimited) = none ∧
    refetchIntervalMs
      (pollStep (pollStep ⟨false, some false, 8⟩ PollEvent.fetchRateLimited)
        (PollEvent.fetchOk false)) = some 5000 := by
  refine ⟨by decide, by decide, by decide⟩

/-- Claim C9, amended: polling runs at the fixed 5000 ms interval only
on step 8 (OAuth) with the rate-limit flag clear and the status not
configured; a 429 response suspends polling and a configured status
stops it, but any subsequent successful status fetch clears the
rate-limit flag, so the suspension lasts only until the next successful
fetch rather than for the remainder of the session. -/
theorem polling_policy_characterization :
    (∀ s : WizardPollState, refetchIntervalMs s = none ∨
      (s.step = 8 ∧ s.isRateLimited = false ∧ refetchIntervalMs s = some 5000)) ∧
    (∀ s : WizardPollState, refetchIntervalMs (pollStep s PollEvent.fetchRateLimited) = none) ∧
    (∀ (s : WizardPollState) (c : Bool),
      (pollStep s (PollEvent.fetchOk c)).isRateLimited = false) ∧
    (∀ s : WizardPollState, refetchIntervalMs { s with lastConfigured := some true } = none) := by
  refine ⟨fun s => ?_, fun s => ?_, fun s c => rfl, fun s => by simp [refetchIntervalMs]⟩
  · unfold refetchIntervalMs
    split
    · exact Or.inl rfl
    · split
      · rename_i hc
        simp only [Bool.and_eq_true, Bool.not_eq_true', decide_eq_true_eq] at hc
        exact Or.inr ⟨hc.1, hc.2, rfl⟩
      · exact Or.inl rfl
  · simp [pollStep, refetchIntervalMs]

end SSC
